import Mathlib

/-
Verification of the sigoREST request pipeline.

Shallow embedding of the Go sources:
  * sigoengine/engine.go — error taxonomy and classification, the enhanced
    circuit breaker, the exponential-backoff retry loop, and the response
    handling of CallAPI;
  * sigoREST/main.go (handleChatCompletions) — message assembly, temperature
    defaulting, the error-kind → HTTP status mapping, and the per-model
    circuit-breaker map.

Modelling conventions:
  * time.Time and time.Duration are modelled as Int (nanoseconds, the unit of
    Go's time.Duration); `second` and `millisecond` below mirror time.Second
    and time.Millisecond;
  * a Go error value is the inductive GoError: an *APIError, a *SigoError
    (its wrapped cause and log fields are dropped — nothing in the programme
    logic reads them), or any other error reduced to its Error() text;
  * each mutex-protected method becomes a pure function from the receiver
    state (plus the timestamps at which the code reads the clock) to the new
    receiver state plus the returned value;
  * float64 request fields (temperature, backoff factor) are modelled as ℚ.
-/

-- ====================================================================
-- Error codes (engine.go lines 40-54)

def ErrConfigNotFound : String := "CONFIG_NOT_FOUND"

def ErrAPIKeyMissing : String := "API_KEY_MISSING"

def ErrAPIFailed : String := "API_FAILED"

def ErrInvalidInput : String := "INVALID_INPUT"

def ErrSessionError : String := "SESSION_ERROR"

def ErrCircuitOpen : String := "CIRCUIT_OPEN"

def ErrUnexpectedFormat : String := "UNEXPECTED_FORMAT"

def ErrRateLimit : String := "RATE_LIMIT"

def ErrAuthFailed : String := "AUTH_FAILED"

def ErrTimeout : String := "TIMEOUT"

def ErrServerError : String := "SERVER_ERROR"

def ErrClientError : String := "CLIENT_ERROR"

-- Durations (ns), mirroring time.Second / time.Millisecond
def second : Int := 1000000000

def millisecond : Int := 1000000

-- ====================================================================
-- APIError (engine.go lines 80-86).  The wrapped `Err error` field is
-- omitted: no claim and no control flow in the embedded code reads it.

structure APIError where
  Typ : String
  StatusCode : Nat
  Message : String
  RetryAfter : Int
deriving DecidableEq

/-- A Go error value as it flows through the pipeline: an *APIError, a
*SigoError (code + message; the Err cause and the Fields map are log-only),
or any other error represented by its Error() string. -/
inductive GoError where
  | apiError (e : APIError)
  | sigoError (code message : String)
  | generic (text : String)
deriving DecidableEq

-- strings.Contains, over character lists
def listStartsWith : List Char → List Char → Bool
  | [], _ => true
  | _ :: _, [] => false
  | p :: ps, c :: cs => p = c && listStartsWith ps cs

def listHasSub (pat : List Char) : List Char → Bool
  | [] => listStartsWith pat []
  | c :: cs => listStartsWith pat (c :: cs) || listHasSub pat cs

def strContains (s sub : String) : Bool := listHasSub sub.toList s.toList

/-- APIError.IsRetryable (engine.go lines 96-105). -/
def APIError.IsRetryable (e : APIError) : Bool :=
  if e.Typ = ErrRateLimit ∨ e.Typ = ErrTimeout ∨ e.Typ = ErrServerError then true
  else if e.Typ = ErrAuthFailed ∨ e.Typ = ErrClientError then false
  else false

/-- ClassifyError (engine.go lines 116-150).  nil is never passed to it in
the embedded paths, so the nil short-circuit is dropped. -/
def ClassifyError (err : GoError) : APIError :=
  match err with
  | .apiError e => e
  | .sigoError code message =>
      { Typ := code, StatusCode := 0, Message := message, RetryAfter := 0 }
  | .generic text =>
      if strContains text "timeout" || strContains text "deadline exceeded" then
        { Typ := ErrTimeout, StatusCode := 0, Message := "Request timeout", RetryAfter := 0 }
      else
        { Typ := ErrAPIFailed, StatusCode := 0, Message := text, RetryAfter := 0 }

/-- classifyHTTPError (engine.go lines 153-198); the `err` argument is nil at
the only call site in CallAPI, so it is dropped. -/
def classifyHTTPError (statusCode : Nat) (message : String) : APIError :=
  if statusCode = 429 then
    { Typ := ErrRateLimit, StatusCode := statusCode, Message := message, RetryAfter := 0 }
  else if statusCode = 401 ∨ statusCode = 403 then
    { Typ := ErrAuthFailed, StatusCode := statusCode, Message := message, RetryAfter := 0 }
  else if statusCode = 408 ∨ statusCode = 504 then
    { Typ := ErrTimeout, StatusCode := statusCode, Message := message, RetryAfter := 0 }
  else if 500 ≤ statusCode then
    { Typ := ErrServerError, StatusCode := statusCode, Message := message, RetryAfter := 0 }
  else if 400 ≤ statusCode then
    { Typ := ErrClientError, StatusCode := statusCode, Message := message, RetryAfter := 0 }
  else
    { Typ := ErrAPIFailed, StatusCode := statusCode, Message := message, RetryAfter := 0 }

-- ====================================================================
-- Enhanced circuit breaker (engine.go lines 708-974)

inductive CircuitBreakerState where
  | CBStateClosed
  | CBStateOpen
  | CBStateHalfOpen
deriving DecidableEq

export CircuitBreakerState (CBStateClosed CBStateOpen CBStateHalfOpen)

/-- CircuitBreakerConfig (engine.go lines 740-745).  Threshold and
HalfOpenMax are Go ints that are non-negative at every construction site,
hence Nat; Window and Cooldown are durations. -/
structure CircuitBreakerConfig where
  Threshold : Nat
  Window : Int
  Cooldown : Int
  HalfOpenMax : Nat
deriving DecidableEq

/-- DefaultCircuitBreakerConfig (engine.go lines 748-755). -/
def DefaultCircuitBreakerConfig : CircuitBreakerConfig :=
  { Threshold := 5, Window := 60 * second, Cooldown := 10 * second, HalfOpenMax := 3 }

/-- EnhancedCircuitBreaker (engine.go lines 817-824); the mutex disappears in
the sequential model. -/
structure EnhancedCircuitBreaker where
  config : CircuitBreakerConfig
  state : CircuitBreakerState
  failures : List Int
  halfOpenAttempts : Nat
  lastStateChange : Int
deriving DecidableEq

/-- NewEnhancedCircuitBreaker (engine.go lines 827-837); `now` stands for the
time.Now() call, `config = none` for a nil config pointer. -/
def NewEnhancedCircuitBreaker (config : Option CircuitBreakerConfig) (now : Int) :
    EnhancedCircuitBreaker :=
  { config := config.getD DefaultCircuitBreakerConfig
    state := CBStateClosed
    failures := []
    halfOpenAttempts := 0
    lastStateChange := now }

/-- cleanupOldFailures (engine.go lines 847-856): keep the timestamps strictly
after now − Window. -/
def cleanupOldFailures (config : CircuitBreakerConfig) (now : Int) (failures : List Int) :
    List Int :=
  failures.filter (fun t => now - config.Window < t)

/-- The entry block of Do (engine.go lines 863-877): in the Open state either
move to HalfOpen (cooldown over) or refuse the call (`none`). -/
def cbStep1 (cb : EnhancedCircuitBreaker) (t1 : Int) : Option EnhancedCircuitBreaker :=
  if cb.state = CBStateOpen then
    if cb.config.Cooldown ≤ t1 - cb.lastStateChange then
      some { cb with state := CBStateHalfOpen, halfOpenAttempts := 0, lastStateChange := t1 }
    else none
  else some cb

/-- The error branch of Do (engine.go lines 898-920): only retryable errors
are recorded; crossing the threshold, or any retryable failure in HalfOpen,
opens the circuit. -/
def cbRecordFailure (cb : EnhancedCircuitBreaker) (t2 : Int) (err : GoError) :
    EnhancedCircuitBreaker :=
  let apiErr := ClassifyError err
  if apiErr.IsRetryable then
    let failures := cb.failures ++ [t2]
    if cb.config.Threshold ≤ failures.length then
      if cb.state ≠ CBStateOpen then
        { cb with failures := failures, state := CBStateOpen, lastStateChange := t2 }
      else
        { cb with failures := failures }
    else if cb.state = CBStateHalfOpen then
      { cb with failures := failures, state := CBStateOpen, lastStateChange := t2 }
    else
      { cb with failures := failures }
  else cb

/-- The success branch of Do (engine.go lines 921-932). -/
def cbRecordSuccess (cb : EnhancedCircuitBreaker) (t2 : Int) : EnhancedCircuitBreaker :=
  if cb.state = CBStateHalfOpen then
    { cb with state := CBStateClosed, failures := [], lastStateChange := t2 }
  else if cb.state = CBStateClosed then
    { cb with failures := cleanupOldFailures cb.config t2 cb.failures }
  else cb

/-- Result of one Do call: either the call was refused with a CircuitOpen
error and fn was never invoked, or fn ran and its error (none = nil) was
passed back. -/
inductive DoResult where
  | rejected (e : GoError)
  | completed (fnErr : Option GoError)
deriving DecidableEq

/-- The admission block of Do (engine.go lines 885-889), run once the call is
let through: count the HalfOpen attempt, then purge stale failures. -/
def cbAdmit (cb1 : EnhancedCircuitBreaker) (t1 : Int) : EnhancedCircuitBreaker :=
  let cb2 := if cb1.state = CBStateHalfOpen then
      { cb1 with halfOpenAttempts := cb1.halfOpenAttempts + 1 }
    else cb1
  { cb2 with failures := cleanupOldFailures cb2.config t1 cb2.failures }

/-- EnhancedCircuitBreaker.Do (engine.go lines 859-935).  `t1` is the clock
while the mutex is first held, `t2` the clock after fn returned; `fnErr` is
the error fn produces if it is invoked. -/
def EnhancedCircuitBreaker.Do (cb : EnhancedCircuitBreaker) (t1 t2 : Int)
    (fnErr : Option GoError) : DoResult × EnhancedCircuitBreaker :=
  match cbStep1 cb t1 with
  | none =>
      (.rejected (.sigoError ErrCircuitOpen "Circuit breaker open"), cb)
  | some cb1 =>
      if cb1.state = CBStateHalfOpen ∧ cb1.config.HalfOpenMax ≤ cb1.halfOpenAttempts then
        (.rejected (.sigoError ErrCircuitOpen "Circuit breaker half-open, max attempts reached"),
         cb1)
      else
        match fnErr with
        | some err => (.completed (some err), cbRecordFailure (cbAdmit cb1 t1) t2 err)
        | none => (.completed none, cbRecordSuccess (cbAdmit cb1 t1) t2)

/-- The breakers reachable by some sequence of Do calls from a freshly
constructed breaker. -/
inductive CBReach : EnhancedCircuitBreaker → Prop where
  | init (config : Option CircuitBreakerConfig) (t0 : Int) :
      CBReach (NewEnhancedCircuitBreaker config t0)
  | step (cb : EnhancedCircuitBreaker) (t1 t2 : Int) (fnErr : Option GoError) :
      CBReach cb → CBReach (cb.Do t1 t2 fnErr).2

-- ====================================================================
-- Retry engine (engine.go lines 978-1067)

/-- RetryConfig (engine.go lines 978-983).  MaxRetries is a Go int (the
handler copies the client-supplied retries field into it), hence Int;
BackoffFactor is a float64, modelled as ℚ. -/
structure RetryConfig where
  MaxRetries : Int
  InitialBackoff : Int
  MaxBackoff : Int
  BackoffFactor : ℚ

/-- DefaultRetryConfig (engine.go lines 986-993). -/
def DefaultRetryConfig : RetryConfig :=
  { MaxRetries := 3, InitialBackoff := 500 * millisecond, MaxBackoff := 5 * second,
    BackoffFactor := 2 }

/-- minDuration (engine.go lines 1062-1067). -/
def minDuration (a b : Int) : Int := if a < b then a else b

/-- maxDuration (engine.go lines 996-1001). -/
def maxDuration (a b : Int) : Int := if a > b then a else b

/-- time.Duration(float64(backoff) * config.BackoffFactor) from engine.go
line 1055: the product backoff · factor truncated toward zero (Go's
float64-to-integer conversion), computed exactly on the rational
factor = num/den.  The product is exact here, which agrees with Go whenever
the float64 product is exact. -/
def scaleBackoff (backoff : Int) (factor : ℚ) : Int :=
  Int.tdiv (backoff * factor.num) (factor.den : Int)

/-- Observable outcome of one RetryWithBackoff run: the returned error
(none = nil), the number of times the work closure ran, and the sequence of
waits actually slept. -/
structure RetryTrace where
  result : Option GoError
  calls : Nat
  sleeps : List Int
deriving DecidableEq

/-- The loop body of RetryWithBackoff (engine.go lines 1007-1056).  `fnErr i`
is the error of the i-th invocation of the closure (none = success) and
`ctxDone i` tells whether the context fires during the wait after attempt i.
The Go loop runs `attempt` from 0 while `attempt ≤ MaxRetries`; `remaining`
here is the number of loop iterations still permitted, i.e.
(MaxRetries + 1 − attempt).toNat, so `remaining = 0` is the loop exit
(returning nil, line 1058) and `remaining = 1` means `attempt = MaxRetries`,
the last-attempt check of line 1014. -/
def retryLoop (config : RetryConfig) (fnErr : Nat → Option GoError) (ctxDone : Nat → Bool)
    (attempt : Nat) (backoff : Int) : Nat → RetryTrace
  | 0 => { result := none, calls := 0, sleeps := [] }
  | remaining + 1 =>
      match fnErr attempt with
      | none => { result := none, calls := 1, sleeps := [] }
      | some err =>
          if remaining = 0 then
            { result := some err, calls := 1, sleeps := [] }
          else
            let apiErr := ClassifyError err
            if !apiErr.IsRetryable then
              { result := some err, calls := 1, sleeps := [] }
            else
              let sleepDuration :=
                if apiErr.Typ = ErrRateLimit ∧ 0 < apiErr.RetryAfter then apiErr.RetryAfter
                else backoff
              if ctxDone attempt then
                { result := some (.sigoError ErrTimeout "Context cancelled during retry backoff"),
                  calls := 1, sleeps := [] }
              else
                let rest := retryLoop config fnErr ctxDone (attempt + 1)
                  (minDuration (scaleBackoff backoff config.BackoffFactor) config.MaxBackoff)
                  remaining
                { result := rest.result, calls := 1 + rest.calls,
                  sleeps := sleepDuration :: rest.sleeps }

/-- RetryWithBackoff (engine.go lines 1004-1059). -/
def RetryWithBackoff (config : RetryConfig) (fnErr : Nat → Option GoError)
    (ctxDone : Nat → Bool) : RetryTrace :=
  retryLoop config fnErr ctxDone 0 config.InitialBackoff (config.MaxRetries + 1).toNat

/-- The local backoff value at the start of iteration i, seeded from `b`. -/
def backoffFrom (config : RetryConfig) (b : Int) : Nat → Int
  | 0 => b
  | i + 1 => minDuration (scaleBackoff (backoffFrom config b i) config.BackoffFactor)
      config.MaxBackoff

/-- The local backoff schedule of a full run (seed = InitialBackoff). -/
def backoffSeq (config : RetryConfig) : Nat → Int :=
  backoffFrom config config.InitialBackoff

-- ====================================================================
-- CallAPI response handling (engine.go lines 1160-1226)

/-- A JSON value, as json.Unmarshal produces it into interface{}. -/
inductive JSON where
  | null
  | bool (b : Bool)
  | num (n : ℚ)
  | str (s : String)
  | arr (elems : List JSON)
  | obj (fields : List (String × JSON))

/-- Go map indexing on the unmarshalled map[string]interface{}. -/
def jsonLookup (fields : List (String × JSON)) (key : String) : Option JSON :=
  match fields with
  | [] => none
  | (k, v) :: rest => if k = key then some v else jsonLookup rest key

/-- strconv.Atoi, as used on the Retry-After header (engine.go line 1176). -/
def atoi (s : String) : Option Int := s.toInt?

/-- Retry-After header handling of CallAPI (engine.go lines 1174-1179):
zero unless the header is present and parses as integer seconds. -/
def parseRetryAfterHeader (header : String) : Int :=
  if header ≠ "" then
    match atoi header with
    | some seconds => seconds * second
    | none => 0
  else 0

/-- fmt.Sprintf("%v", errMsg["message"]) from engine.go line 1201.  Only the
string and missing-key cases are ever exercised by a theorem below; the
remaining cases approximate Go's %v rendering. -/
def fmtV (j : Option JSON) : String :=
  match j with
  | none => "<nil>"
  | some .null => "<nil>"
  | some (.str s) => s
  | some (.bool b) => if b then "true" else "false"
  | some (.num _) => "number"
  | some (.arr _) => "array"
  | some (.obj _) => "map"

/-- Outcome of CallAPI: the extracted assistant text, an error, or a runtime
panic (the unchecked type assertions on content[0] / choices[0] in
engine.go lines 1209 and 1217 panic when the element is not a JSON object). -/
inductive CallOutcome where
  | ok (text : String)
  | err (e : GoError)
  | panicked
deriving DecidableEq

/-- The format-specific result extraction of CallAPI (engine.go lines
1206-1225): for the anthropic kind first content[0].text, then for every
kind choices[0].message.content, else the unexpected-format error.  The
unchecked Go type assertions on content[0] and choices[0] (lines 1209 and
1217) panic when the element is present but not an object. -/
def extractResult (cfgType : String) (result : List (String × JSON)) : CallOutcome :=
  let anthropic : Option CallOutcome :=
    if cfgType = "anthropic" then
      match jsonLookup result "content" with
      | some (.arr (c0 :: _)) =>
          match c0 with
          | .obj c0fields =>
              match jsonLookup c0fields "text" with
              | some (.str t) => some (.ok t)
              | _ => none
          | _ => some .panicked
      | _ => none
    else none
  match anthropic with
  | some out => out
  | none =>
      match jsonLookup result "choices" with
      | some (.arr (ch0 :: _)) =>
          match ch0 with
          | .obj ch0fields =>
              match jsonLookup ch0fields "message" with
              | some (.obj msgFields) =>
                  match jsonLookup msgFields "content" with
                  | some (.str content) => .ok content
                  | _ => .err (.sigoError ErrUnexpectedFormat "Unexpected response format")
              | _ => .err (.sigoError ErrUnexpectedFormat "Unexpected response format")
          | _ => .panicked
      | _ => .err (.sigoError ErrUnexpectedFormat "Unexpected response format")

/-- The part of CallAPI from the HTTP exchange onward (engine.go lines
1167-1226).  `statusCode`, `retryAfterHeader` and `body` come from the
upstream response; `parsed` is the result of json.Unmarshal of `body` into
map[string]interface{} (`none` = unmarshal error, which includes any body
whose top level is not an object). -/
def callAPIHandleResponse (cfgType : String) (statusCode : Nat) (retryAfterHeader : String)
    (body : String) (parsed : Option (List (String × JSON))) : CallOutcome :=
  if statusCode ≠ 200 then
    let retryAfter := parseRetryAfterHeader retryAfterHeader
    let apiErr := classifyHTTPError statusCode body
    .err (.apiError { apiErr with RetryAfter := retryAfter })
  else
    match parsed with
    | none => .err (.sigoError ErrAPIFailed "Failed to parse JSON response")
    | some result =>
        match jsonLookup result "error" with
        | some (.obj errFields) =>
            .err (.sigoError ErrAPIFailed (fmtV (jsonLookup errFields "message")))
        | _ => extractResult cfgType result

/-- choices[0].message.content as a string, the OpenAI response shape the
spec names in §4.2. -/
def jsonChoicesContent (result : List (String × JSON)) : Option String :=
  match jsonLookup result "choices" with
  | some (.arr (JSON.obj ch0 :: _)) =>
      match jsonLookup ch0 "message" with
      | some (.obj msg) =>
          match jsonLookup msg "content" with
          | some (.str s) => some s
          | _ => none
      | _ => none
  | _ => none

/-- content[0].text as a string, the Anthropic response shape the spec names
in §4.2. -/
def jsonAnthropicText (result : List (String × JSON)) : Option String :=
  match jsonLookup result "content" with
  | some (.arr (JSON.obj c0 :: _)) =>
      match jsonLookup c0 "text" with
      | some (.str s) => some s
      | _ => none
  | _ => none

-- ====================================================================
-- Gateway handler, sigoREST/main.go handleChatCompletions

/-- MemoryBlock (main.go lines 53-56). -/
structure MemoryBlock where
  Content : String
  Cache : Bool
deriving DecidableEq

/-- ChatMessage (main.go lines 322-325). -/
structure ChatMessage where
  Role : String
  Content : String
deriving DecidableEq

/-- Message, the sigoengine session turn (engine.go lines 653-656). -/
structure Message where
  Role : String
  Content : String
deriving DecidableEq

/-- The body of the client-message walk of handleChatCompletions (main.go
lines 449-463): a system message passes through with role "system", any
other message passes through unchanged and, when its role is "user", becomes
the new userPrompt. -/
def chatMsgStep (acc : List ChatMessage × String) (msg : ChatMessage) :
    List ChatMessage × String :=
  if msg.Role = "system" then
    (acc.1 ++ [{ Role := "system", Content := msg.Content }], acc.2)
  else
    (acc.1 ++ [{ Role := msg.Role, Content := msg.Content }],
     if msg.Role = "user" then msg.Content else acc.2)

/-- The message-assembly block of handleChatCompletions (main.go lines
423-463): memory preamble, then the persisted session turns (LoadSession is
represented by its result, `sessionHistory`), then the client messages; the
second component is the `userPrompt` accumulator (initially ""). -/
def buildChatMessages (mem : MemoryBlock) (sessionID : String)
    (sessionHistory : List Message) (reqMessages : List ChatMessage) :
    List ChatMessage × String :=
  let messages : List ChatMessage := []
  let messages := if mem.Content ≠ "" then
      messages ++ [{ Role := "system", Content := mem.Content }]
    else messages
  let messages := if sessionID ≠ "" then
      messages ++ sessionHistory.map (fun m => { Role := m.Role, Content := m.Content })
    else messages
  reqMessages.foldl chatMsgStep (messages, "")

/-- The temperature defaulting of handleChatCompletions (main.go lines
409-415); the result is what line 470 sends upstream as "temperature". -/
def defaultTemperature (reqTemp minTemperature maxTemperature : ℚ) : ℚ :=
  if reqTemp = 0 then
    if minTemperature < maxTemperature then (minTemperature + maxTemperature) / 2
    else 1
  else reqTemp

/-- What the error path of handleChatCompletions sends (main.go lines
512-553 together with writeError, lines 847-855): HTTP status, the envelope
fields error.type, error.message, error.code, and whether the Retry-After
response header was set. -/
structure HTTPErrorReply where
  status : Nat
  errType : String
  message : String
  code : String
  retryAfterSet : Bool
deriving DecidableEq

/-- The error branch of handleChatCompletions (main.go lines 512-553). -/
def handleChatCompletionsError (err : GoError) : HTTPErrorReply :=
  let apiErr := ClassifyError err
  let pair : Nat × String :=
    if apiErr.Typ = ErrRateLimit then (429, "rate_limit")
    else if apiErr.Typ = ErrAuthFailed then (401, "auth_failed")
    else if apiErr.Typ = ErrTimeout then (504, "timeout")
    else if apiErr.Typ = ErrServerError then (503, "server_error")
    else if apiErr.Typ = ErrClientError then (400, "client_error")
    else if apiErr.Typ = ErrCircuitOpen then (503, "circuit_open")
    else (502, "api_error")
  let retrySet := apiErr.Typ = ErrRateLimit ∧ 0 < apiErr.RetryAfter
  { status := pair.1, errType := pair.2, message := apiErr.Message, code := pair.2,
    retryAfterSet := decide retrySet }

/-- Go map lookup on the server's breakers map, represented as an
association list. -/
def lookupKey (breakers : List (String × EnhancedCircuitBreaker)) (key : String) :
    Option EnhancedCircuitBreaker :=
  match breakers with
  | [] => none
  | (k, v) :: rest => if k = key then some v else lookupKey rest key

/-- Go map store on the breakers map. -/
def setBreaker (breakers : List (String × EnhancedCircuitBreaker)) (key : String)
    (cb : EnhancedCircuitBreaker) : List (String × EnhancedCircuitBreaker) :=
  match breakers with
  | [] => [(key, cb)]
  | (k, v) :: rest => if k = key then (k, cb) :: rest else (k, v) :: setBreaker rest key cb

/-- The breaker configuration the handler installs (main.go lines 481-486). -/
def handlerCBConfig : CircuitBreakerConfig :=
  { Threshold := 5, Window := 60 * second, Cooldown := 10 * second, HalfOpenMax := 3 }

/-- The lazy create-and-fetch of main.go lines 479-490: the key is req.Model,
the token exactly as the client sent it (the resolved canonical id, computed
in lines 374-389, is NOT used here). -/
def getOrCreateBreaker (breakers : List (String × EnhancedCircuitBreaker))
    (reqModel : String) (t0 : Int) :
    EnhancedCircuitBreaker × List (String × EnhancedCircuitBreaker) :=
  match lookupKey breakers reqModel with
  | some cb => (cb, breakers)
  | none =>
      let cb := NewEnhancedCircuitBreaker (some handlerCBConfig) t0
      (cb, (reqModel, cb) :: breakers)

/-- One request's effect on the breakers map (main.go lines 479-510): fetch
or install the breaker under req.Model, run Do on it, store the mutated
breaker back under the same key.  `t0` is the installation clock, `t1`/`t2`
the clocks inside Do, `fnErr` the outcome of the upstream call. -/
def serverBreakerStep (breakers : List (String × EnhancedCircuitBreaker))
    (reqModel : String) (t0 t1 t2 : Int) (fnErr : Option GoError) :
    DoResult × List (String × EnhancedCircuitBreaker) :=
  let gb := getOrCreateBreaker breakers reqModel t0
  let dr := gb.1.Do t1 t2 fnErr
  (dr.1, setBreaker gb.2 reqModel dr.2)

-- ====================================================================
-- Circuit-breaker helper lemmas

theorem cbStep1_config (cb : EnhancedCircuitBreaker) (t1 : Int) (cb1 : EnhancedCircuitBreaker)
    (h : cbStep1 cb t1 = some cb1) : cb1.config = cb.config := by
  unfold cbStep1 at h
  split at h
  · split at h
    · cases h; rfl
    · cases h
  · cases h; rfl

theorem cbStep1_failures (cb : EnhancedCircuitBreaker) (t1 : Int)
    (cb1 : EnhancedCircuitBreaker) (h : cbStep1 cb t1 = some cb1) :
    cb1.failures = cb.failures := by
  unfold cbStep1 at h
  split at h
  · split at h
    · cases h; rfl
    · cases h
  · cases h; rfl

theorem cbStep1_state_ne_open (cb : EnhancedCircuitBreaker) (t1 : Int)
    (cb1 : EnhancedCircuitBreaker) (h : cbStep1 cb t1 = some cb1) :
    cb1.state ≠ CBStateOpen := by
  unfold cbStep1 at h
  split at h
  · split at h
    · cases h; simp
    · cases h
  · rename_i hne
    cases h; exact hne

theorem cbAdmit_state (cb1 : EnhancedCircuitBreaker) (t1 : Int) :
    (cbAdmit cb1 t1).state = cb1.state := by
  unfold cbAdmit
  split <;> rfl

theorem cbAdmit_config (cb1 : EnhancedCircuitBreaker) (t1 : Int) :
    (cbAdmit cb1 t1).config = cb1.config := by
  unfold cbAdmit
  split <;> rfl

theorem cbAdmit_failures (cb1 : EnhancedCircuitBreaker) (t1 : Int) :
    (cbAdmit cb1 t1).failures = cleanupOldFailures cb1.config t1 cb1.failures := by
  unfold cbAdmit
  split <;> rfl

theorem cbRecordFailure_config (cb : EnhancedCircuitBreaker) (t2 : Int) (err : GoError) :
    (cbRecordFailure cb t2 err).config = cb.config := by
  unfold cbRecordFailure
  dsimp only
  split_ifs <;> rfl

theorem cbRecordSuccess_config (cb : EnhancedCircuitBreaker) (t2 : Int) :
    (cbRecordSuccess cb t2).config = cb.config := by
  unfold cbRecordSuccess
  split_ifs <;> rfl

theorem Do_reject_closed (cb : EnhancedCircuitBreaker) (t1 t2 : Int) (fnErr : Option GoError)
    (h : cbStep1 cb t1 = none) :
    cb.Do t1 t2 fnErr = (.rejected (.sigoError ErrCircuitOpen "Circuit breaker open"), cb) := by
  unfold EnhancedCircuitBreaker.Do
  rw [h]

theorem Do_reject_halfopen (cb : EnhancedCircuitBreaker) (t1 t2 : Int) (fnErr : Option GoError)
    (cb1 : EnhancedCircuitBreaker) (h : cbStep1 cb t1 = some cb1)
    (hg : cb1.state = CBStateHalfOpen ∧ cb1.config.HalfOpenMax ≤ cb1.halfOpenAttempts) :
    cb.Do t1 t2 fnErr =
      (.rejected (.sigoError ErrCircuitOpen "Circuit breaker half-open, max attempts reached"),
       cb1) := by
  unfold EnhancedCircuitBreaker.Do
  rw [h]
  exact if_pos hg

theorem Do_admit_failure (cb : EnhancedCircuitBreaker) (t1 t2 : Int) (e : GoError)
    (cb1 : EnhancedCircuitBreaker) (h : cbStep1 cb t1 = some cb1)
    (hg : ¬(cb1.state = CBStateHalfOpen ∧ cb1.config.HalfOpenMax ≤ cb1.halfOpenAttempts)) :
    cb.Do t1 t2 (some e) = (.completed (some e), cbRecordFailure (cbAdmit cb1 t1) t2 e) := by
  unfold EnhancedCircuitBreaker.Do
  rw [h]
  exact if_neg hg

theorem Do_admit_success (cb : EnhancedCircuitBreaker) (t1 t2 : Int)
    (cb1 : EnhancedCircuitBreaker) (h : cbStep1 cb t1 = some cb1)
    (hg : ¬(cb1.state = CBStateHalfOpen ∧ cb1.config.HalfOpenMax ≤ cb1.halfOpenAttempts)) :
    cb.Do t1 t2 none = (.completed none, cbRecordSuccess (cbAdmit cb1 t1) t2) := by
  unfold EnhancedCircuitBreaker.Do
  rw [h]
  exact if_neg hg

theorem Do_config (cb : EnhancedCircuitBreaker) (t1 t2 : Int) (fnErr : Option GoError) :
    ((cb.Do t1 t2 fnErr).2).config = cb.config := by
  cases h1 : cbStep1 cb t1 with
  | none => rw [Do_reject_closed cb t1 t2 fnErr h1]
  | some cb1 =>
    have hc1 := cbStep1_config cb t1 cb1 h1
    by_cases hg : cb1.state = CBStateHalfOpen ∧ cb1.config.HalfOpenMax ≤ cb1.halfOpenAttempts
    · rw [Do_reject_halfopen cb t1 t2 fnErr cb1 h1 hg]
      exact hc1
    · cases fnErr with
      | some e =>
        rw [Do_admit_failure cb t1 t2 e cb1 h1 hg]
        simp only [cbRecordFailure_config, cbAdmit_config]
        exact hc1
      | none =>
        rw [Do_admit_success cb t1 t2 cb1 h1 hg]
        simp only [cbRecordSuccess_config, cbAdmit_config]
        exact hc1

/-- The inductive invariant of the breaker state machine: below the threshold
while Closed (whenever the threshold is positive), and the half-open attempt
counter never beyond its bound. -/
def CBInv (cb : EnhancedCircuitBreaker) : Prop :=
  (0 < cb.config.Threshold → cb.state = CBStateClosed →
    cb.failures.length < cb.config.Threshold)
  ∧ cb.halfOpenAttempts ≤ cb.config.HalfOpenMax

theorem CBInv_init (config : Option CircuitBreakerConfig) (t0 : Int) :
    CBInv (NewEnhancedCircuitBreaker config t0) := by
  constructor
  · intro h _
    simpa [NewEnhancedCircuitBreaker] using h
  · simp [NewEnhancedCircuitBreaker]

theorem CBInv_cbStep1 (cb : EnhancedCircuitBreaker) (t1 : Int) (cb1 : EnhancedCircuitBreaker)
    (h : cbStep1 cb t1 = some cb1) (hinv : CBInv cb) : CBInv cb1 := by
  unfold cbStep1 at h
  split at h
  · split at h
    · cases h
      exact ⟨fun _ hc => (nomatch hc), Nat.zero_le _⟩
    · cases h
  · cases h
    exact hinv

theorem CBInv_cbAdmit (cb1 : EnhancedCircuitBreaker) (t1 : Int)
    (hg : ¬(cb1.state = CBStateHalfOpen ∧ cb1.config.HalfOpenMax ≤ cb1.halfOpenAttempts))
    (hinv : CBInv cb1) : CBInv (cbAdmit cb1 t1) := by
  unfold cbAdmit
  dsimp only
  split
  · rename_i hho
    refine ⟨fun _ hc => ?_, ?_⟩
    · exact absurd hc (by simp [hho])
    · have hlt : ¬ cb1.config.HalfOpenMax ≤ cb1.halfOpenAttempts := fun hle => hg ⟨hho, hle⟩
      simpa using Nat.lt_of_not_le hlt
  · refine ⟨fun hthr hc => ?_, hinv.2⟩
    have hc1 : cb1.state = CBStateClosed := hc
    have hlen := hinv.1 hthr hc1
    calc (cleanupOldFailures cb1.config t1 cb1.failures).length
        ≤ cb1.failures.length := List.length_filter_le _ _
      _ < cb1.config.Threshold := hlen

theorem CBInv_cbRecordFailure (cb : EnhancedCircuitBreaker) (t2 : Int) (err : GoError)
    (hinv : CBInv cb) : CBInv (cbRecordFailure cb t2 err) := by
  unfold cbRecordFailure
  dsimp only
  split_ifs with h1 h2 h3
  · exact ⟨fun _ hc => (nomatch hc), hinv.2⟩
  · refine ⟨fun _ hc => ?_, hinv.2⟩
    have hopen : cb.state = CBStateOpen := not_not.mp (by simpa using h3)
    have hclosed : cb.state = CBStateClosed := hc
    rw [hopen] at hclosed
    cases hclosed
  · exact ⟨fun _ hc => (nomatch hc), hinv.2⟩
  · refine ⟨fun hthr hc => ?_, hinv.2⟩
    have : cb.failures.length + 1 < cb.config.Threshold := by
      have := Nat.lt_of_not_le h2
      simpa [List.length_append] using this
    simpa [List.length_append] using this
  · exact hinv

theorem CBInv_cbRecordSuccess (cb : EnhancedCircuitBreaker) (t2 : Int)
    (hinv : CBInv cb) : CBInv (cbRecordSuccess cb t2) := by
  unfold cbRecordSuccess
  split_ifs with h1 h2
  · exact ⟨fun hthr _ => by simpa using hthr, hinv.2⟩
  · refine ⟨fun hthr hc => ?_, hinv.2⟩
    have hlen := hinv.1 hthr h2
    calc (cleanupOldFailures cb.config t2 cb.failures).length
        ≤ cb.failures.length := List.length_filter_le _ _
      _ < cb.config.Threshold := hlen
  · exact hinv


theorem CBInv_Do (cb : EnhancedCircuitBreaker) (t1 t2 : Int) (fnErr : Option GoError)
    (hinv : CBInv cb) : CBInv (cb.Do t1 t2 fnErr).2 := by
  cases h1 : cbStep1 cb t1 with
  | none =>
    rw [Do_reject_closed cb t1 t2 fnErr h1]
    exact hinv
  | some cb1 =>
    have hinv1 := CBInv_cbStep1 cb t1 cb1 h1 hinv
    by_cases hg : cb1.state = CBStateHalfOpen ∧ cb1.config.HalfOpenMax ≤ cb1.halfOpenAttempts
    · rw [Do_reject_halfopen cb t1 t2 fnErr cb1 h1 hg]
      exact hinv1
    · have hadm := CBInv_cbAdmit cb1 t1 hg hinv1
      cases fnErr with
      | some e =>
        rw [Do_admit_failure cb t1 t2 e cb1 h1 hg]
        exact CBInv_cbRecordFailure _ t2 e hadm
      | none =>
        rw [Do_admit_success cb t1 t2 cb1 h1 hg]
        exact CBInv_cbRecordSuccess _ t2 hadm

theorem CBInv_reach (cb : EnhancedCircuitBreaker) (h : CBReach cb) : CBInv cb := by
  induction h with
  | init config t0 => exact CBInv_init config t0
  | step cb t1 t2 fnErr _ ih => exact CBInv_Do cb t1 t2 fnErr ih

theorem recordFailure_opens (cbx : EnhancedCircuitBreaker) (t2 : Int) (e : GoError)
    (hstate : cbx.state ≠ CBStateOpen) (hr : (ClassifyError e).IsRetryable = true)
    (hthr2 : cbx.config.Threshold ≤ (cbRecordFailure cbx t2 e).failures.length) :
    (cbRecordFailure cbx t2 e).state = CBStateOpen ∧
      (cbRecordFailure cbx t2 e).lastStateChange = t2 := by
  unfold cbRecordFailure at hthr2 ⊢
  dsimp only at hthr2 ⊢
  rw [if_pos hr] at hthr2 ⊢
  by_cases h2 : cbx.config.Threshold ≤ (cbx.failures ++ [t2]).length
  · rw [if_pos h2] at hthr2 ⊢
    rw [if_pos hstate] at hthr2 ⊢
    exact ⟨rfl, rfl⟩
  · rw [if_neg h2] at hthr2 ⊢
    by_cases h3 : cbx.state = CBStateHalfOpen
    · rw [if_pos h3] at hthr2 ⊢
      exact ⟨rfl, rfl⟩
    · rw [if_neg h3] at hthr2 ⊢
      dsimp only at hthr2
      exact absurd hthr2 h2

theorem recordFailure_nonretryable (cbx : EnhancedCircuitBreaker) (t2 : Int) (e : GoError)
    (hr : (ClassifyError e).IsRetryable = false) :
    cbRecordFailure cbx t2 e = cbx := by
  unfold cbRecordFailure
  dsimp only
  rw [if_neg (by simp [hr])]

theorem recordFailure_halfopen_opens (cbx : EnhancedCircuitBreaker) (t2 : Int) (e : GoError)
    (hho : cbx.state = CBStateHalfOpen) (hr : (ClassifyError e).IsRetryable = true) :
    (cbRecordFailure cbx t2 e).state = CBStateOpen ∧
      (cbRecordFailure cbx t2 e).lastStateChange = t2 := by
  unfold cbRecordFailure
  dsimp only
  rw [if_pos hr]
  by_cases h2 : cbx.config.Threshold ≤ (cbx.failures ++ [t2]).length
  · rw [if_pos h2, if_pos (show cbx.state ≠ CBStateOpen by rw [hho]; simp)]
    exact ⟨rfl, rfl⟩
  · rw [if_neg h2, if_pos hho]
    exact ⟨rfl, rfl⟩

theorem recordSuccess_halfopen (cbx : EnhancedCircuitBreaker) (t2 : Int)
    (h : cbx.state = CBStateHalfOpen) :
    cbRecordSuccess cbx t2 =
      { cbx with state := CBStateClosed, failures := [], lastStateChange := t2 } := by
  unfold cbRecordSuccess
  rw [if_pos h]

-- ====================================================================
-- Concrete fixtures used by the witnesses below

def serverErrW : APIError :=
  { Typ := ErrServerError, StatusCode := 500, Message := "boom", RetryAfter := 0 }

def clientErrW : APIError :=
  { Typ := ErrClientError, StatusCode := 400, Message := "bad", RetryAfter := 0 }

def rateLimitW : APIError :=
  { Typ := ErrRateLimit, StatusCode := 429, Message := "slow", RetryAfter := 2 * second }

def cbW0 : EnhancedCircuitBreaker :=
  NewEnhancedCircuitBreaker
    (some { Threshold := 1, Window := 60 * second, Cooldown := 0, HalfOpenMax := 3 }) 0

def cbW1 : EnhancedCircuitBreaker := (cbW0.Do 0 0 (some (.apiError serverErrW))).2

def cbW2 : EnhancedCircuitBreaker := (cbW1.Do 0 0 (some (.apiError clientErrW))).2

theorem cbW2_reach : CBReach cbW2 :=
  CBReach.step cbW1 0 0 (some (.apiError clientErrW))
    (CBReach.step cbW0 0 0 (some (.apiError serverErrW)) (CBReach.init _ 0))

def cbV0 : EnhancedCircuitBreaker :=
  NewEnhancedCircuitBreaker
    (some { Threshold := 1, Window := 60 * second, Cooldown := 10 * second, HalfOpenMax := 3 }) 0

def cbV1 : EnhancedCircuitBreaker := (cbV0.Do 0 0 (some (.apiError serverErrW))).2

-- ====================================================================
-- C1

/-- C1: for every enhanced circuit breaker reachable by a sequence of Do
calls (with a positive threshold, which every construction site sets):
(i) while the state is Closed the number of recorded failure timestamps
inside any window — hence in particular the windowed count — stays
strictly below the threshold; (ii) a retryable failure whose recording
brings the count to the threshold transitions the state to Open and stamps
last-state-change with the recording time; (iii) a completed call whose
error is non-retryable never adds to the failure list (the resulting list is
a sublist of the old one) and never leaves the breaker in the Open state. -/
theorem enhancedBreaker_closed_window_below_threshold
    (cb : EnhancedCircuitBreaker) (hthr : 0 < cb.config.Threshold) (hreach : CBReach cb)
    (t1 t2 : Int) :
    (cb.state = CBStateClosed →
      ∀ now : Int,
        (cleanupOldFailures cb.config now cb.failures).length < cb.config.Threshold)
  ∧ (∀ e cb1, (ClassifyError e).IsRetryable = true →
      cb.Do t1 t2 (some e) = (.completed (some e), cb1) →
      cb.config.Threshold ≤ cb1.failures.length →
      cb1.state = CBStateOpen ∧ cb1.lastStateChange = t2)
  ∧ (∀ e cb1, (ClassifyError e).IsRetryable = false →
      cb.Do t1 t2 (some e) = (.completed (some e), cb1) →
      List.Sublist cb1.failures cb.failures ∧ cb1.state ≠ CBStateOpen) := by
  refine ⟨?_, ?_, ?_⟩
  · intro hc now
    have hlen := (CBInv_reach cb hreach).1 hthr hc
    calc (cleanupOldFailures cb.config now cb.failures).length
        ≤ cb.failures.length := List.length_filter_le _ _
      _ < cb.config.Threshold := hlen
  · intro e cb1 hr hdo hth
    cases h1 : cbStep1 cb t1 with
    | none =>
      rw [Do_reject_closed cb t1 t2 (some e) h1] at hdo
      simp at hdo
    | some cbx1 =>
      by_cases hg : cbx1.state = CBStateHalfOpen ∧ cbx1.config.HalfOpenMax ≤ cbx1.halfOpenAttempts
      · rw [Do_reject_halfopen cb t1 t2 (some e) cbx1 h1 hg] at hdo
        simp at hdo
      · rw [Do_admit_failure cb t1 t2 e cbx1 h1 hg] at hdo
        have hcb1 : cbRecordFailure (cbAdmit cbx1 t1) t2 e = cb1 := congrArg Prod.snd hdo
        subst hcb1
        have hst : (cbAdmit cbx1 t1).state ≠ CBStateOpen := by
          rw [cbAdmit_state]
          exact cbStep1_state_ne_open cb t1 cbx1 h1
        have hcfg : (cbAdmit cbx1 t1).config = cb.config := by
          rw [cbAdmit_config]
          exact cbStep1_config cb t1 cbx1 h1
        rw [← hcfg] at hth
        exact recordFailure_opens _ t2 e hst hr hth
  · intro e cb1 hr hdo
    cases h1 : cbStep1 cb t1 with
    | none =>
      rw [Do_reject_closed cb t1 t2 (some e) h1] at hdo
      simp at hdo
    | some cbx1 =>
      by_cases hg : cbx1.state = CBStateHalfOpen ∧ cbx1.config.HalfOpenMax ≤ cbx1.halfOpenAttempts
      · rw [Do_reject_halfopen cb t1 t2 (some e) cbx1 h1 hg] at hdo
        simp at hdo
      · rw [Do_admit_failure cb t1 t2 e cbx1 h1 hg] at hdo
        have hcb1 : cbRecordFailure (cbAdmit cbx1 t1) t2 e = cb1 := congrArg Prod.snd hdo
        rw [recordFailure_nonretryable _ t2 e hr] at hcb1
        subst hcb1
        constructor
        · rw [cbAdmit_failures, cbStep1_failures cb t1 cbx1 h1]
          simp only [cleanupOldFailures]
          exact List.filter_sublist _
        · rw [cbAdmit_state]
          exact cbStep1_state_ne_open cb t1 cbx1 h1

/-- Witness for C1 at a freshly installed handler breaker. -/
theorem enhancedBreaker_closed_window_below_threshold_witness :
    (cleanupOldFailures (NewEnhancedCircuitBreaker (some handlerCBConfig) 0).config 0
        (NewEnhancedCircuitBreaker (some handlerCBConfig) 0).failures).length <
      (NewEnhancedCircuitBreaker (some handlerCBConfig) 0).config.Threshold :=
  (enhancedBreaker_closed_window_below_threshold
    (NewEnhancedCircuitBreaker (some handlerCBConfig) 0) (by decide)
    (CBReach.init (some handlerCBConfig) 0) 0 0).1 rfl 0

-- ====================================================================
-- C2

/-- C2: when the enhanced breaker is Open and less than Cooldown has passed
since last-state-change, Do returns the CircuitOpen error with the breaker
unchanged and independently of the work outcome (the work function is never
invoked — the rejected result is produced before fn would run); once at
least Cooldown has passed, the entry block of the next Do call moves the
breaker to HalfOpen, resets the half-open attempt counter and stamps
last-state-change, before the call proceeds. -/
theorem enhancedBreaker_open_cooldown_gate
    (cb : EnhancedCircuitBreaker) (t1 t2 : Int) (hopen : cb.state = CBStateOpen) :
    (t1 - cb.lastStateChange < cb.config.Cooldown →
      ∀ fnErr, cb.Do t1 t2 fnErr =
        (.rejected (.sigoError ErrCircuitOpen "Circuit breaker open"), cb))
  ∧ (cb.config.Cooldown ≤ t1 - cb.lastStateChange →
      cbStep1 cb t1 = some { cb with
        state := CBStateHalfOpen,
        halfOpenAttempts := 0,
        lastStateChange := t1 }) := by
  constructor
  · intro hcool fnErr
    apply Do_reject_closed
    unfold cbStep1
    rw [if_pos hopen, if_neg (not_le.mpr hcool)]
  · intro hcool
    unfold cbStep1
    rw [if_pos hopen, if_pos hcool]

/-- Witness for C2: a breaker opened at time 0 with a 10 s cooldown rejects
a Do call at time 3 without touching its state. -/
theorem enhancedBreaker_open_cooldown_gate_witness :
    cbV1.Do 3 3 (some (.apiError serverErrW)) =
      (.rejected (.sigoError ErrCircuitOpen "Circuit breaker open"), cbV1) :=
  (enhancedBreaker_open_cooldown_gate cbV1 3 3 (by decide)).1 (by decide)
    (some (.apiError serverErrW))

-- ====================================================================
-- C3

/-- C3: for every reachable enhanced breaker, in the HalfOpen state: (i) the
half-open attempt counter never exceeds HalfOpenMax, so at most HalfOpenMax
trial calls are admitted before a state change; (ii) once the counter has
reached HalfOpenMax, Do returns CircuitOpen with the breaker unchanged and
independently of the work outcome (the work function is never invoked);
(iii) an admitted trial that succeeds moves the breaker to Closed, empties
the failure list and stamps last-state-change; (iv) an admitted trial that
fails with a retryable error moves the breaker back to Open and stamps
last-state-change. -/
theorem enhancedBreaker_halfopen_trials
    (cb : EnhancedCircuitBreaker) (hreach : CBReach cb) (t1 t2 : Int) :
    (cb.state = CBStateHalfOpen → cb.halfOpenAttempts ≤ cb.config.HalfOpenMax)
  ∧ (cb.state = CBStateHalfOpen → cb.config.HalfOpenMax ≤ cb.halfOpenAttempts →
      ∀ fnErr, cb.Do t1 t2 fnErr =
        (.rejected (.sigoError ErrCircuitOpen
          "Circuit breaker half-open, max attempts reached"), cb))
  ∧ (cb.state = CBStateHalfOpen → cb.halfOpenAttempts < cb.config.HalfOpenMax →
      (cb.Do t1 t2 none).2.state = CBStateClosed ∧ (cb.Do t1 t2 none).2.failures = [] ∧
        (cb.Do t1 t2 none).2.lastStateChange = t2)
  ∧ (∀ e, cb.state = CBStateHalfOpen → cb.halfOpenAttempts < cb.config.HalfOpenMax →
      (ClassifyError e).IsRetryable = true →
      (cb.Do t1 t2 (some e)).2.state = CBStateOpen ∧
        (cb.Do t1 t2 (some e)).2.lastStateChange = t2) := by
  refine ⟨?_, ?_, ?_, ?_⟩
  · intro _
    exact (CBInv_reach cb hreach).2
  · intro hho hmax fnErr
    have hne : ¬ cb.state = CBStateOpen := by rw [hho]; simp
    have hstep : cbStep1 cb t1 = some cb := by
      unfold cbStep1
      rw [if_neg hne]
    exact Do_reject_halfopen cb t1 t2 fnErr cb hstep ⟨hho, hmax⟩
  · intro hho hlt
    have hne : ¬ cb.state = CBStateOpen := by rw [hho]; simp
    have hstep : cbStep1 cb t1 = some cb := by
      unfold cbStep1
      rw [if_neg hne]
    have hg : ¬(cb.state = CBStateHalfOpen ∧ cb.config.HalfOpenMax ≤ cb.halfOpenAttempts) :=
      fun h => (Nat.not_le.mpr hlt) h.2
    rw [Do_admit_success cb t1 t2 cb hstep hg]
    have hadm : (cbAdmit cb t1).state = CBStateHalfOpen := by rw [cbAdmit_state, hho]
    rw [recordSuccess_halfopen _ t2 hadm]
    exact ⟨rfl, rfl, rfl⟩
  · intro e hho hlt hr
    have hne : ¬ cb.state = CBStateOpen := by rw [hho]; simp
    have hstep : cbStep1 cb t1 = some cb := by
      unfold cbStep1
      rw [if_neg hne]
    have hg : ¬(cb.state = CBStateHalfOpen ∧ cb.config.HalfOpenMax ≤ cb.halfOpenAttempts) :=
      fun h => (Nat.not_le.mpr hlt) h.2
    rw [Do_admit_failure cb t1 t2 e cb hstep hg]
    have hadm : (cbAdmit cb t1).state = CBStateHalfOpen := by rw [cbAdmit_state, hho]
    exact recordFailure_halfopen_opens _ t2 e hadm hr

/-- Witness for C3 at a reachable half-open breaker: a successful trial at
time 5 closes it, clears the failures and stamps last-state-change. -/
theorem enhancedBreaker_halfopen_trials_witness :
    (cbW2.Do 0 5 none).2.state = CBStateClosed ∧ (cbW2.Do 0 5 none).2.failures = [] ∧
      (cbW2.Do 0 5 none).2.lastStateChange = 5 :=
  (enhancedBreaker_halfopen_trials cbW2 cbW2_reach 0 5).2.2.1 (by decide) (by decide)

-- ====================================================================
-- Retry-loop helper lemmas

theorem minDuration_le_right (a b : Int) : minDuration a b ≤ b := by
  unfold minDuration
  split_ifs with h
  · exact le_of_lt h
  · exact le_refl b

theorem retryLoop_calls_le (config : RetryConfig) (fnErr : Nat → Option GoError)
    (ctxDone : Nat → Bool) :
    ∀ (remaining attempt : Nat) (backoff : Int),
      (retryLoop config fnErr ctxDone attempt backoff remaining).calls ≤ remaining := by
  intro remaining
  induction remaining with
  | zero =>
    intro attempt backoff
    exact Nat.le_refl 0
  | succ n ih =>
    intro attempt backoff
    simp only [retryLoop]
    cases hf : fnErr attempt with
    | none =>
      show (1 : Nat) ≤ n + 1
      omega
    | some err =>
      dsimp only
      by_cases h1 : n = 0
      · rw [if_pos h1]
        show (1 : Nat) ≤ n + 1
        omega
      · rw [if_neg h1]
        by_cases h2 : (!(ClassifyError err).IsRetryable) = true
        · rw [if_pos h2]
          show (1 : Nat) ≤ n + 1
          omega
        · rw [if_neg h2]
          by_cases h3 : ctxDone attempt = true
          · rw [if_pos h3]
            show (1 : Nat) ≤ n + 1
            omega
          · rw [if_neg h3]
            show 1 + (retryLoop config fnErr ctxDone (attempt + 1)
                (minDuration (scaleBackoff backoff config.BackoffFactor) config.MaxBackoff)
                n).calls ≤ n + 1
            have := ih (attempt + 1)
              (minDuration (scaleBackoff backoff config.BackoffFactor) config.MaxBackoff)
            omega

theorem retryLoop_nonretryable (config : RetryConfig) (fnErr : Nat → Option GoError)
    (ctxDone : Nat → Bool) (attempt : Nat) (backoff : Int) (remaining : Nat) (e : GoError)
    (hf : fnErr attempt = some e) (hr : (ClassifyError e).IsRetryable = false) :
    retryLoop config fnErr ctxDone attempt backoff (remaining + 1) =
      { result := some e, calls := 1, sleeps := [] } := by
  simp only [retryLoop, hf]
  by_cases hn : remaining = 0
  · rw [if_pos hn]
  · rw [if_neg hn]
    rw [if_pos (by simp [hr])]

theorem backoffFrom_shift (config : RetryConfig) (b : Int) (i : Nat) :
    backoffFrom config b (i + 1) =
      backoffFrom config
        (minDuration (scaleBackoff b config.BackoffFactor) config.MaxBackoff) i := by
  induction i with
  | zero => rfl
  | succ n ih =>
    show minDuration (scaleBackoff (backoffFrom config b (n + 1)) config.BackoffFactor)
        config.MaxBackoff = _
    rw [ih]
    rfl

theorem retryLoop_sleeps (config : RetryConfig) (fnErr : Nat → Option GoError)
    (ctxDone : Nat → Bool) :
    ∀ (remaining attempt : Nat) (backoff : Int) (i : Nat) (s : Int),
      (retryLoop config fnErr ctxDone attempt backoff remaining).sleeps.get? i = some s →
      ∃ e, fnErr (attempt + i) = some e ∧ (ClassifyError e).IsRetryable = true ∧
        s = (if (ClassifyError e).Typ = ErrRateLimit ∧ 0 < (ClassifyError e).RetryAfter
             then (ClassifyError e).RetryAfter else backoffFrom config backoff i) := by
  intro remaining
  induction remaining with
  | zero =>
    intro attempt backoff i s hs
    simp [retryLoop] at hs
  | succ n ih =>
    intro attempt backoff i s hs
    simp only [retryLoop] at hs
    cases hf : fnErr attempt with
    | none =>
      rw [hf] at hs
      simp at hs
    | some err =>
      rw [hf] at hs
      dsimp only at hs
      by_cases h1 : n = 0
      · rw [if_pos h1] at hs
        simp at hs
      · rw [if_neg h1] at hs
        by_cases h2 : (!(ClassifyError err).IsRetryable) = true
        · rw [if_pos h2] at hs
          simp at hs
        · rw [if_neg h2] at hs
          by_cases h3 : ctxDone attempt = true
          · rw [if_pos h3] at hs
            simp at hs
          · rw [if_neg h3] at hs
            have hret : (ClassifyError err).IsRetryable = true := by
              simpa using h2
            cases i with
            | zero =>
              refine ⟨err, by simpa using hf, hret, ?_⟩
              simp only [List.get?] at hs
              cases hs
              rfl
            | succ j =>
              have hrest : (retryLoop config fnErr ctxDone (attempt + 1)
                  (minDuration (scaleBackoff backoff config.BackoffFactor) config.MaxBackoff)
                  n).sleeps.get? j = some s := by
                simpa using hs
              obtain ⟨e, he, her, hval⟩ := ih (attempt + 1)
                (minDuration (scaleBackoff backoff config.BackoffFactor) config.MaxBackoff)
                j s hrest
              refine ⟨e, ?_, her, ?_⟩
              · rw [show attempt + (j + 1) = attempt + 1 + j by omega]
                exact he
              · rw [backoffFrom_shift]
                exact hval

-- ====================================================================
-- C4

/-- C4: for every retry configuration with a non-negative retry budget and
every work closure, RetryWithBackoff invokes the closure at most
MaxRetries + 1 times; at any loop position, an invocation whose error
classifies as non-retryable makes the loop return that error immediately
after that single invocation and with no wait; in particular a closure whose
first error is non-retryable is invoked exactly once. -/
theorem retryWithBackoff_invocation_bound (config : RetryConfig)
    (fnErr : Nat → Option GoError) (ctxDone : Nat → Bool)
    (hmr : 0 ≤ config.MaxRetries) :
    ((RetryWithBackoff config fnErr ctxDone).calls : Int) ≤ config.MaxRetries + 1
  ∧ (∀ (attempt remaining : Nat) (backoff : Int) (e : GoError), fnErr attempt = some e →
      (ClassifyError e).IsRetryable = false →
      retryLoop config fnErr ctxDone attempt backoff (remaining + 1) =
        { result := some e, calls := 1, sleeps := [] })
  ∧ (∀ e, fnErr 0 = some e → (ClassifyError e).IsRetryable = false →
      RetryWithBackoff config fnErr ctxDone =
        { result := some e, calls := 1, sleeps := [] }) := by
  refine ⟨?_, ?_, ?_⟩
  · have h := retryLoop_calls_le config fnErr ctxDone (config.MaxRetries + 1).toNat 0
      config.InitialBackoff
    unfold RetryWithBackoff
    omega
  · intro attempt remaining backoff e hf hr
    exact retryLoop_nonretryable config fnErr ctxDone attempt backoff remaining e hf hr
  · intro e hf hr
    unfold RetryWithBackoff
    have hto : (config.MaxRetries + 1).toNat = config.MaxRetries.toNat + 1 := by omega
    rw [hto]
    exact retryLoop_nonretryable config fnErr ctxDone 0 config.InitialBackoff
      config.MaxRetries.toNat e hf hr

def fn4W : Nat → Option GoError := fun n =>
  if n = 0 then some (.apiError clientErrW) else none

def ctxDoneW : Nat → Bool := fun _ => false

/-- Witness for C4: with the default configuration (MaxRetries = 3) and a
closure whose first error is a non-retryable client error, the closure runs
exactly once and the error is surfaced unchanged. -/
theorem retryWithBackoff_invocation_bound_witness :
    ((RetryWithBackoff DefaultRetryConfig fn4W ctxDoneW).calls : Int) ≤
      DefaultRetryConfig.MaxRetries + 1
  ∧ RetryWithBackoff DefaultRetryConfig fn4W ctxDoneW =
      { result := some (.apiError clientErrW), calls := 1, sleeps := [] } :=
  ⟨(retryWithBackoff_invocation_bound DefaultRetryConfig fn4W ctxDoneW (by decide)).1,
   (retryWithBackoff_invocation_bound DefaultRetryConfig fn4W ctxDoneW (by decide)).2.2
     (.apiError clientErrW) rfl (by decide)⟩

-- ====================================================================
-- C5

/-- C5: in every iteration of the retry loop the recorded wait equals the
classified error's RetryAfter when that error has kind RateLimit with
RetryAfter > 0, and the current local backoff value otherwise, where the
local backoff schedule is the sequence backoffSeq that is independent of any
RetryAfter hint; and after every iteration the schedule advances to
min(scaled backoff, MaxBackoff), hence never exceeds MaxBackoff. -/
theorem retryWithBackoff_retry_after_precedence (config : RetryConfig)
    (fnErr : Nat → Option GoError) (ctxDone : Nat → Bool) :
    (∀ (i : Nat) (s : Int),
      (RetryWithBackoff config fnErr ctxDone).sleeps.get? i = some s →
      ∃ e, fnErr i = some e ∧ (ClassifyError e).IsRetryable = true ∧
        s = (if (ClassifyError e).Typ = ErrRateLimit ∧ 0 < (ClassifyError e).RetryAfter
             then (ClassifyError e).RetryAfter else backoffSeq config i))
  ∧ (∀ i : Nat, backoffSeq config (i + 1) =
        minDuration (scaleBackoff (backoffSeq config i) config.BackoffFactor)
          config.MaxBackoff
      ∧ backoffSeq config (i + 1) ≤ config.MaxBackoff) := by
  constructor
  · intro i s hs
    have h := retryLoop_sleeps config fnErr ctxDone (config.MaxRetries + 1).toNat 0
      config.InitialBackoff i s hs
    simpa using h
  · intro i
    exact ⟨rfl, minDuration_le_right _ _⟩

def fnW : Nat → Option GoError := fun n =>
  if n = 0 then some (.apiError rateLimitW)
  else if n = 1 then some (.apiError serverErrW)
  else none

def cfgW : RetryConfig :=
  { MaxRetries := 2, InitialBackoff := 500 * millisecond, MaxBackoff := 5 * second,
    BackoffFactor := 2 }

/-- Witness for C5: first error is a 429 with Retry-After 2 s, so the first
wait is 2 s rather than the 500 ms local backoff; the second error is a 500,
and its wait is the advanced local backoff of 1 s. -/
theorem retryWithBackoff_retry_after_precedence_witness :
    (∃ e, fnW 0 = some e ∧ (ClassifyError e).IsRetryable = true ∧
      (2 * second : Int) =
        (if (ClassifyError e).Typ = ErrRateLimit ∧ 0 < (ClassifyError e).RetryAfter
         then (ClassifyError e).RetryAfter else backoffSeq cfgW 0))
  ∧ (∃ e, fnW 1 = some e ∧ (ClassifyError e).IsRetryable = true ∧
      (1000 * millisecond : Int) =
        (if (ClassifyError e).Typ = ErrRateLimit ∧ 0 < (ClassifyError e).RetryAfter
         then (ClassifyError e).RetryAfter else backoffSeq cfgW 1)) :=
  ⟨(retryWithBackoff_retry_after_precedence cfgW fnW ctxDoneW).1 0 (2 * second) (by decide),
   (retryWithBackoff_retry_after_precedence cfgW fnW ctxDoneW).1 1 (1000 * millisecond)
     (by decide)⟩

-- ====================================================================
-- C6

theorem chatMsgStep_foldl (msgs : List ChatMessage) :
    ∀ (acc : List ChatMessage) (u : String),
      (msgs.foldl chatMsgStep (acc, u)).1 = acc ++ msgs := by
  induction msgs with
  | nil =>
    intro acc u
    simp
  | cons m ms ih =>
    intro acc u
    simp only [List.foldl_cons]
    by_cases h : m.Role = "system"
    · have hstep : chatMsgStep (acc, u) m =
          (acc ++ [{ Role := "system", Content := m.Content }], u) := by
        unfold chatMsgStep
        rw [if_pos h]
      rw [hstep, ih]
      have hm : ({ Role := "system", Content := m.Content } : ChatMessage) = m := by
        cases m
        simp_all
      rw [hm]
      simp
    · have hstep : chatMsgStep (acc, u) m =
          (acc ++ [{ Role := m.Role, Content := m.Content }],
           if m.Role = "user" then m.Content else u) := by
        unfold chatMsgStep
        rw [if_neg h]
      rw [hstep, ih]
      have hm : ({ Role := m.Role, Content := m.Content } : ChatMessage) = m := by
        cases m
        rfl
      rw [hm]
      simp

/-- C6: the outgoing message list is exactly one system turn carrying the
memory content (present only when that content is non-empty), followed by
the persisted session turns in stored order (present only when a non-empty
session id was supplied), followed by the client messages in their original
order — client-supplied system messages and non-system messages alike pass
through at their original relative positions. -/
theorem chatMessages_assembly_order (mem : MemoryBlock) (sessionID : String)
    (sessionHistory : List Message) (reqMessages : List ChatMessage) :
    (buildChatMessages mem sessionID sessionHistory reqMessages).1 =
      (if mem.Content ≠ "" then [{ Role := "system", Content := mem.Content }] else [])
      ++ (if sessionID ≠ "" then
            sessionHistory.map (fun m => { Role := m.Role, Content := m.Content })
          else [])
      ++ reqMessages := by
  unfold buildChatMessages
  rw [chatMsgStep_foldl]
  by_cases h1 : mem.Content ≠ "" <;> by_cases h2 : sessionID ≠ "" <;> simp [h1, h2]

-- ====================================================================
-- C7

/-- C7: when the request pipeline finally fails, the HTTP status is chosen by
the classified error kind — RateLimit 429, AuthFailed 401, Timeout 504,
ServerError 503, ClientError 400, CircuitOpen 503, every other kind 502 —
the envelope carries the classified message with type and code equal to the
mapped type string, and the Retry-After response header is set exactly for a
RateLimit failure with positive RetryAfter. -/
theorem handleChatError_status_mapping (err : GoError) :
    ((ClassifyError err).Typ = ErrRateLimit →
      (handleChatCompletionsError err).status = 429 ∧
        (handleChatCompletionsError err).errType = "rate_limit")
  ∧ ((ClassifyError err).Typ = ErrAuthFailed →
      (handleChatCompletionsError err).status = 401 ∧
        (handleChatCompletionsError err).errType = "auth_failed")
  ∧ ((ClassifyError err).Typ = ErrTimeout →
      (handleChatCompletionsError err).status = 504 ∧
        (handleChatCompletionsError err).errType = "timeout")
  ∧ ((ClassifyError err).Typ = ErrServerError →
      (handleChatCompletionsError err).status = 503 ∧
        (handleChatCompletionsError err).errType = "server_error")
  ∧ ((ClassifyError err).Typ = ErrClientError →
      (handleChatCompletionsError err).status = 400 ∧
        (handleChatCompletionsError err).errType = "client_error")
  ∧ ((ClassifyError err).Typ = ErrCircuitOpen →
      (handleChatCompletionsError err).status = 503 ∧
        (handleChatCompletionsError err).errType = "circuit_open")
  ∧ ((ClassifyError err).Typ ≠ ErrRateLimit → (ClassifyError err).Typ ≠ ErrAuthFailed →
      (ClassifyError err).Typ ≠ ErrTimeout → (ClassifyError err).Typ ≠ ErrServerError →
      (ClassifyError err).Typ ≠ ErrClientError → (ClassifyError err).Typ ≠ ErrCircuitOpen →
      (handleChatCompletionsError err).status = 502 ∧
        (handleChatCompletionsError err).errType = "api_error")
  ∧ (handleChatCompletionsError err).message = (ClassifyError err).Message
  ∧ (handleChatCompletionsError err).code = (handleChatCompletionsError err).errType
  ∧ ((handleChatCompletionsError err).retryAfterSet = true ↔
      (ClassifyError err).Typ = ErrRateLimit ∧ 0 < (ClassifyError err).RetryAfter) := by
  unfold handleChatCompletionsError
  dsimp only
  refine ⟨?_, ?_, ?_, ?_, ?_, ?_, ?_, rfl, rfl, decide_eq_true_iff⟩
  · intro h
    rw [if_pos h]
    exact ⟨rfl, rfl⟩
  · intro h
    have h1 : (ClassifyError err).Typ ≠ ErrRateLimit := by rw [h]; decide
    rw [if_neg h1, if_pos h]
    exact ⟨rfl, rfl⟩
  · intro h
    have h1 : (ClassifyError err).Typ ≠ ErrRateLimit := by rw [h]; decide
    have h2 : (ClassifyError err).Typ ≠ ErrAuthFailed := by rw [h]; decide
    rw [if_neg h1, if_neg h2, if_pos h]
    exact ⟨rfl, rfl⟩
  · intro h
    have h1 : (ClassifyError err).Typ ≠ ErrRateLimit := by rw [h]; decide
    have h2 : (ClassifyError err).Typ ≠ ErrAuthFailed := by rw [h]; decide
    have h3 : (ClassifyError err).Typ ≠ ErrTimeout := by rw [h]; decide
    rw [if_neg h1, if_neg h2, if_neg h3, if_pos h]
    exact ⟨rfl, rfl⟩
  · intro h
    have h1 : (ClassifyError err).Typ ≠ ErrRateLimit := by rw [h]; decide
    have h2 : (ClassifyError err).Typ ≠ ErrAuthFailed := by rw [h]; decide
    have h3 : (ClassifyError err).Typ ≠ ErrTimeout := by rw [h]; decide
    have h4 : (ClassifyError err).Typ ≠ ErrServerError := by rw [h]; decide
    rw [if_neg h1, if_neg h2, if_neg h3, if_neg h4, if_pos h]
    exact ⟨rfl, rfl⟩
  · intro h
    have h1 : (ClassifyError err).Typ ≠ ErrRateLimit := by rw [h]; decide
    have h2 : (ClassifyError err).Typ ≠ ErrAuthFailed := by rw [h]; decide
    have h3 : (ClassifyError err).Typ ≠ ErrTimeout := by rw [h]; decide
    have h4 : (ClassifyError err).Typ ≠ ErrServerError := by rw [h]; decide
    have h5 : (ClassifyError err).Typ ≠ ErrClientError := by rw [h]; decide
    rw [if_neg h1, if_neg h2, if_neg h3, if_neg h4, if_neg h5, if_pos h]
    exact ⟨rfl, rfl⟩
  · intro h1 h2 h3 h4 h5 h6
    rw [if_neg h1, if_neg h2, if_neg h3, if_neg h4, if_neg h5, if_neg h6]
    exact ⟨rfl, rfl⟩

/-- Witness for C7 at a rate-limit failure carrying Retry-After 2 s. -/
theorem handleChatError_status_mapping_witness :
    (handleChatCompletionsError (.apiError rateLimitW)).status = 429 ∧
      (handleChatCompletionsError (.apiError rateLimitW)).errType = "rate_limit" :=
  (handleChatError_status_mapping (.apiError rateLimitW)).1 rfl

-- ====================================================================
-- C8

/-- Whether a Go type assertion to map[string]interface{} on this value
would succeed, i.e. whether it is a JSON object. -/
def isObj : Option JSON → Bool
  | some (.obj _) => true
  | _ => false

theorem jsonChoicesContent_spec (result : List (String × JSON)) (text : String)
    (h : jsonChoicesContent result = some text) :
    ∃ ch0 rest msgFields,
      jsonLookup result "choices" = some (.arr (JSON.obj ch0 :: rest)) ∧
      jsonLookup ch0 "message" = some (.obj msgFields) ∧
      jsonLookup msgFields "content" = some (.str text) := by
  unfold jsonChoicesContent at h
  cases hch : jsonLookup result "choices" with
  | none => rw [hch] at h; exact absurd h (by simp)
  | some v =>
    rw [hch] at h
    cases v with
    | null => exact absurd h (by simp)
    | bool b => exact absurd h (by simp)
    | num n => exact absurd h (by simp)
    | str s => exact absurd h (by simp)
    | obj fields => exact absurd h (by simp)
    | arr elems =>
      cases elems with
      | nil => exact absurd h (by simp)
      | cons c0 rest =>
        cases c0 with
        | null => exact absurd h (by simp)
        | bool b => exact absurd h (by simp)
        | num n => exact absurd h (by simp)
        | str s => exact absurd h (by simp)
        | arr xs => exact absurd h (by simp)
        | obj ch0 =>
          dsimp only at h
          cases hmsg : jsonLookup ch0 "message" with
          | none => rw [hmsg] at h; exact absurd h (by simp)
          | some mv =>
            rw [hmsg] at h
            cases mv with
            | null => exact absurd h (by simp)
            | bool b => exact absurd h (by simp)
            | num n => exact absurd h (by simp)
            | str s => exact absurd h (by simp)
            | arr xs => exact absurd h (by simp)
            | obj msgFields =>
              dsimp only at h
              cases hcont : jsonLookup msgFields "content" with
              | none => rw [hcont] at h; exact absurd h (by simp)
              | some cv =>
                rw [hcont] at h
                cases cv with
                | null => exact absurd h (by simp)
                | bool b => exact absurd h (by simp)
                | num n => exact absurd h (by simp)
                | arr xs => exact absurd h (by simp)
                | obj f => exact absurd h (by simp)
                | str s =>
                  have hs : s = text := by simpa using h
                  subst hs
                  exact ⟨ch0, rest, msgFields, rfl, hmsg, hcont⟩

theorem jsonAnthropicText_spec (result : List (String × JSON)) (text : String)
    (h : jsonAnthropicText result = some text) :
    ∃ c0 rest,
      jsonLookup result "content" = some (.arr (JSON.obj c0 :: rest)) ∧
      jsonLookup c0 "text" = some (.str text) := by
  unfold jsonAnthropicText at h
  cases hct : jsonLookup result "content" with
  | none => rw [hct] at h; exact absurd h (by simp)
  | some v =>
    rw [hct] at h
    cases v with
    | null => exact absurd h (by simp)
    | bool b => exact absurd h (by simp)
    | num n => exact absurd h (by simp)
    | str s => exact absurd h (by simp)
    | obj fields => exact absurd h (by simp)
    | arr elems =>
      cases elems with
      | nil => exact absurd h (by simp)
      | cons c0 rest =>
        cases c0 with
        | null => exact absurd h (by simp)
        | bool b => exact absurd h (by simp)
        | num n => exact absurd h (by simp)
        | str s => exact absurd h (by simp)
        | arr xs => exact absurd h (by simp)
        | obj c0f =>
          dsimp only at h
          cases htx : jsonLookup c0f "text" with
          | none => rw [htx] at h; exact absurd h (by simp)
          | some tv =>
            rw [htx] at h
            cases tv with
            | null => exact absurd h (by simp)
            | bool b => exact absurd h (by simp)
            | num n => exact absurd h (by simp)
            | arr xs => exact absurd h (by simp)
            | obj f => exact absurd h (by simp)
            | str s =>
              have hs : s = text := by simpa using h
              subst hs
              exact ⟨c0f, rest, rfl, htx⟩

theorem classifyHTTPError_message (statusCode : Nat) (message : String) :
    (classifyHTTPError statusCode message).Message = message := by
  unfold classifyHTTPError
  split_ifs <;> rfl

theorem callAPIHandleResponse_200 (cfgType : String) (retryAfterHeader body : String)
    (result : List (String × JSON)) (herrB : isObj (jsonLookup result "error") = false) :
    callAPIHandleResponse cfgType 200 retryAfterHeader body (some result) =
      extractResult cfgType result := by
  unfold callAPIHandleResponse
  rw [if_neg (by simp)]
  dsimp only
  cases herr : jsonLookup result "error" with
  | none => rfl
  | some v =>
    cases v with
    | null => rfl
    | bool b => rfl
    | num n => rfl
    | str s => rfl
    | arr xs => rfl
    | obj f =>
      rw [herr] at herrB
      simp [isObj] at herrB

theorem extractResult_openai (cfgType : String) (result : List (String × JSON))
    (text : String) (hcfg : cfgType ≠ "anthropic")
    (hcc : jsonChoicesContent result = some text) :
    extractResult cfgType result = .ok text := by
  obtain ⟨ch0, rest, msgFields, hch, hmsg, hcont⟩ := jsonChoicesContent_spec result text hcc
  unfold extractResult
  rw [if_neg hcfg]
  dsimp only
  rw [hch]
  dsimp only
  rw [hmsg]
  dsimp only
  rw [hcont]

theorem extractResult_anthropic (result : List (String × JSON)) (text : String)
    (hat : jsonAnthropicText result = some text) :
    extractResult "anthropic" result = .ok text := by
  obtain ⟨c0f, rest, hct, htx⟩ := jsonAnthropicText_spec result text hat
  unfold extractResult
  rw [if_pos rfl]
  dsimp only
  rw [hct]
  dsimp only
  rw [htx]

def okBody : List (String × JSON) :=
  [("choices", .arr [.obj [("message",
      .obj [("role", .str "assistant"), ("content", .str "Hallo")])]])]

def errBody : List (String × JSON) :=
  ("error", .obj [("message", .str "boom")]) :: okBody

/-- C8 counterexample: the claim reads any 2xx response with a well-formed
choices[0].message.content as a success, but CallAPI treats every status
other than exactly 200 as an error — a 201 response carrying valid choices
yields an APIError, not the extracted string; and even at 200 a top-level
error object takes precedence over a well-formed choices array. -/
theorem callAPI_response_handling_counterexample :
    jsonChoicesContent okBody = some "Hallo"
  ∧ callAPIHandleResponse "openai" 201 "" "" (some okBody) ≠ .ok "Hallo"
  ∧ callAPIHandleResponse "openai" 201 "" "" (some okBody) =
      .err (.apiError { Typ := ErrAPIFailed, StatusCode := 201, Message := "",
                        RetryAfter := 0 })
  ∧ jsonChoicesContent errBody = some "Hallo"
  ∧ callAPIHandleResponse "openai" 200 "" "" (some errBody) ≠ .ok "Hallo"
  ∧ callAPIHandleResponse "openai" 200 "" "" (some errBody) =
      .err (.sigoError ErrAPIFailed "boom") := by
  exact ⟨by decide, by decide, by decide, by decide, by decide, by decide⟩

/-- C8 (amended): for every upstream exchange performed by CallAPI, a
response with a status other than exactly 200 yields an APIError whose kind
is derived from the status code, whose message is the response body, and
whose retry_after is parsed from the Retry-After header when it is an
integer number of seconds; a response with status 200 whose JSON body has no
top-level error object and contains choices[0].message.content as a string
(or, for the anthropic kind, content[0].text) yields that string as the
successful result. -/
theorem callAPI_response_handling_amended (cfgType : String) (statusCode : Nat)
    (retryAfterHeader body : String) (parsed : Option (List (String × JSON))) :
    (statusCode ≠ 200 →
      callAPIHandleResponse cfgType statusCode retryAfterHeader body parsed =
        .err (.apiError { classifyHTTPError statusCode body with
                          RetryAfter := parseRetryAfterHeader retryAfterHeader })
      ∧ (classifyHTTPError statusCode body).Message = body)
  ∧ (∀ result text, statusCode = 200 → parsed = some result →
      isObj (jsonLookup result "error") = false → cfgType ≠ "anthropic" →
      jsonChoicesContent result = some text →
      callAPIHandleResponse cfgType statusCode retryAfterHeader body parsed = .ok text)
  ∧ (∀ result text, statusCode = 200 → parsed = some result →
      isObj (jsonLookup result "error") = false → cfgType = "anthropic" →
      jsonAnthropicText result = some text →
      callAPIHandleResponse cfgType statusCode retryAfterHeader body parsed = .ok text) := by
  refine ⟨?_, ?_, ?_⟩
  · intro h
    refine ⟨?_, classifyHTTPError_message _ _⟩
    unfold callAPIHandleResponse
    rw [if_pos h]
  · intro result text h200 hp herrB hcfg hcc
    subst h200
    subst hp
    rw [callAPIHandleResponse_200 cfgType retryAfterHeader body result herrB]
    exact extractResult_openai cfgType result text hcfg hcc
  · intro result text h200 hp herrB hcfg hat
    subst h200
    subst hp
    subst hcfg
    rw [callAPIHandleResponse_200 "anthropic" retryAfterHeader body result herrB]
    exact extractResult_anthropic result text hat

/-- Witness for C8 (amended), both halves: a 503 response with body and
Retry-After header produces the classified server error carrying both, and a
200 response with a well-formed choices body produces its content. -/
theorem callAPI_response_handling_witness :
    (callAPIHandleResponse "openai" 503 "2" "overloaded" none =
        .err (.apiError { classifyHTTPError 503 "overloaded" with
                          RetryAfter := parseRetryAfterHeader "2" })
      ∧ (classifyHTTPError 503 "overloaded").Message = "overloaded")
  ∧ callAPIHandleResponse "openai" 200 "" "" (some okBody) = .ok "Hallo" :=
  ⟨(callAPI_response_handling_amended "openai" 503 "2" "overloaded" none).1 (by decide),
   (callAPI_response_handling_amended "openai" 200 "" "" (some okBody)).2.1 okBody "Hallo"
     rfl rfl (by decide) (by decide) (by decide)⟩

-- ====================================================================
-- C9

/-- C9 counterexample: the claim covers every client temperature ≤ 0, but
the handler tests req.Temp == 0 exactly; a client temperature of −1 (which
is ≤ 0, with model bounds min = 0 < max = 2) passes through unchanged
instead of becoming (0+2)/2 = 1. -/
theorem defaultTemperature_negative_counterexample :
    ((-1 : ℚ) ≤ 0 ∧ (0 : ℚ) < 2)
  ∧ defaultTemperature (-1) 0 2 = -1
  ∧ defaultTemperature (-1) 0 2 ≠ (0 + 2) / 2
  ∧ defaultTemperature (-1) 0 2 ≠ 1 := by
  refine ⟨⟨by norm_num, by norm_num⟩, ?_, ?_, ?_⟩
  · unfold defaultTemperature
    rw [if_neg (by norm_num)]
  · unfold defaultTemperature
    rw [if_neg (by norm_num)]
    norm_num
  · unfold defaultTemperature
    rw [if_neg (by norm_num)]
    norm_num

/-- C9 (amended): when the client-supplied temperature is exactly 0, the
temperature sent upstream is (min+max)/2 if the resolved model's min
temperature is strictly below its max, and 1.0 otherwise; every non-zero
client temperature — negative values included — passes through unchanged. -/
theorem defaultTemperature_zero_amended (reqTemp minTemperature maxTemperature : ℚ) :
    (reqTemp = 0 →
      defaultTemperature reqTemp minTemperature maxTemperature =
        (if minTemperature < maxTemperature then (minTemperature + maxTemperature) / 2
         else 1))
  ∧ (reqTemp ≠ 0 →
      defaultTemperature reqTemp minTemperature maxTemperature = reqTemp) := by
  constructor
  · intro h
    unfold defaultTemperature
    rw [if_pos h]
  · intro h
    unfold defaultTemperature
    rw [if_neg h]

/-- Witness for C9 (amended) at temperature 0 with bounds 0 < 2. -/
theorem defaultTemperature_zero_witness :
    defaultTemperature 0 0 2 =
      (if (0 : ℚ) < 2 then ((0 : ℚ) + 2) / 2 else 1) :=
  (defaultTemperature_zero_amended 0 0 2).1 rfl

-- ====================================================================
-- C10

theorem lookupKey_setBreaker_self (l : List (String × EnhancedCircuitBreaker))
    (key : String) (cb : EnhancedCircuitBreaker) :
    lookupKey (setBreaker l key cb) key = some cb := by
  induction l with
  | nil =>
    unfold setBreaker lookupKey
    rw [if_pos rfl]
  | cons p rest ih =>
    obtain ⟨k, v⟩ := p
    unfold setBreaker
    by_cases h : k = key
    · rw [if_pos h]
      unfold lookupKey
      rw [if_pos h]
    · rw [if_neg h]
      unfold lookupKey
      rw [if_neg h]
      exact ih

theorem lookupKey_setBreaker_other (l : List (String × EnhancedCircuitBreaker))
    (key other : String) (cb : EnhancedCircuitBreaker) (h : other ≠ key) :
    lookupKey (setBreaker l key cb) other = lookupKey l other := by
  induction l with
  | nil =>
    unfold setBreaker lookupKey
    rw [if_neg (fun he => h he.symm)]
    rfl
  | cons p rest ih =>
    obtain ⟨k, v⟩ := p
    unfold setBreaker
    by_cases hk : k = key
    · rw [if_pos hk]
      unfold lookupKey
      by_cases hko : k = other
      · exact absurd (hko.symm.trans hk) h
      · rw [if_neg hko, if_neg hko]
    · rw [if_neg hk]
      unfold lookupKey
      by_cases hko : k = other
      · rw [if_pos hko, if_pos hko]
      · rw [if_neg hko, if_neg hko]
        exact ih

theorem getOrCreateBreaker_other (breakers : List (String × EnhancedCircuitBreaker))
    (reqModel : String) (t0 : Int) (other : String) (h : other ≠ reqModel) :
    lookupKey (getOrCreateBreaker breakers reqModel t0).2 other =
      lookupKey breakers other := by
  unfold getOrCreateBreaker
  cases hl : lookupKey breakers reqModel with
  | some cb => rfl
  | none =>
    dsimp only
    conv_lhs => unfold lookupKey
    rw [if_neg (fun he => h he.symm)]

/-- C10: the breaker a request uses is the one stored under the
client-supplied model token req.Model (the resolved canonical id computed
earlier in the handler plays no part in the key): after a request — in
particular a failing one — the entry under req.Model holds exactly the
breaker produced by running Do on the fetched-or-installed breaker, while
the entry under every other key, a canonical id addressed by its shortcode
included, is completely unchanged in state, failure list and timestamps. -/
theorem serverBreaker_keyed_by_request_token
    (breakers : List (String × EnhancedCircuitBreaker)) (reqModel : String)
    (t0 t1 t2 : Int) (fnErr : Option GoError) :
    lookupKey (serverBreakerStep breakers reqModel t0 t1 t2 fnErr).2 reqModel =
      some ((getOrCreateBreaker breakers reqModel t0).1.Do t1 t2 fnErr).2
  ∧ (∀ other, other ≠ reqModel →
      lookupKey (serverBreakerStep breakers reqModel t0 t1 t2 fnErr).2 other =
        lookupKey breakers other) := by
  constructor
  · unfold serverBreakerStep
    dsimp only
    exact lookupKey_setBreaker_self _ _ _
  · intro other h
    unfold serverBreakerStep
    dsimp only
    rw [lookupKey_setBreaker_other _ _ _ _ h]
    exact getOrCreateBreaker_other breakers reqModel t0 other h

/-- Witness for C10: a failing request addressed via the shortcode token
"haiku" leaves the breaker entry of the canonical id untouched. -/
theorem serverBreaker_keyed_by_request_token_witness :
    lookupKey (serverBreakerStep [] "haiku" 0 0 0 (some (.apiError serverErrW))).2
        "claude-3-5-haiku-20241022" =
      lookupKey [] "claude-3-5-haiku-20241022" :=
  (serverBreaker_keyed_by_request_token [] "haiku" 0 0 0 (some (.apiError serverErrW))).2
    "claude-3-5-haiku-20241022" (by decide)
